import Mathlib

/-!
# Verification of the SafetyMonitor subsystem

A shallow embedding of `src/security/safety_monitor.py` (class `SafetyMonitor`
and its data model) together with proofs of the specification's claims about
it.  Python floats are modelled as rationals (all threshold logic is pure
ordering comparison), `datetime` timestamps as natural numbers, and callback
exceptions as `Except String Unit` results that the dispatch loop catches.
-/

namespace SafetyMon

/-- `SafetyLevel` enum: safety alert levels. -/
inductive SafetyLevel where
  | normal
  | warning
  | critical
  | emergency
deriving DecidableEq, Repr

/-- Position of a level in the source's `level_order` list
`[NORMAL, WARNING, CRITICAL, EMERGENCY]`. -/
def levelRank : SafetyLevel → Nat
  | .normal => 0
  | .warning => 1
  | .critical => 2
  | .emergency => 3

/-- Binary max by `level_order` index; Python's `max` keeps the earlier
element on ties. -/
def maxLevel (a b : SafetyLevel) : SafetyLevel :=
  if levelRank a < levelRank b then b else a

/-- Python `max(levels, key=...)` over a list that always starts with
`NORMAL` in the source. -/
def maxLevelList (l : List SafetyLevel) : SafetyLevel :=
  l.foldl maxLevel .normal

/-- `ShutdownReason` enum: reasons for emergency shutdown. -/
inductive ShutdownReason where
  | thermal_runaway
  | power_surge
  | neural_anomaly
  | unauthorized_process
  | manual_override
  | system_failure
deriving DecidableEq, Repr

/-- `ThermalThresholds` dataclass with its default field values. -/
structure ThermalThresholds where
  warning_threshold : ℚ := 45
  throttling_threshold : ℚ := 50
  critical_threshold : ℚ := 55
  emergency_threshold : ℚ := 60
  max_allowed : ℚ := 60
deriving DecidableEq, Repr

/-- `PowerThresholds` dataclass with its default field values. -/
structure PowerThresholds where
  normal_current_ma : ℚ := 100
  warning_current_ma : ℚ := 500
  critical_current_ma : ℚ := 1000
  max_current_ma : ℚ := 2000
  current_limit_ma : ℚ := 1500
deriving DecidableEq, Repr

/-- `NeuralSafetyThresholds` dataclass with its default field values. -/
structure NeuralSafetyThresholds where
  normal_eeg_uv : ℚ := 100
  seizure_threshold_uv : ℚ := 500
  critical_threshold_uv : ℚ := 1000
  sampling_rate_hz : Nat := 256
deriving DecidableEq, Repr

/-- `SafetyState` dataclass: current state of the safety monitoring system.
`last_shutdown : Optional[datetime]` is modelled with a `Nat` timestamp. -/
structure SafetyState where
  is_active : Bool := false
  is_emergency : Bool := false
  current_temperature : ℚ := 0
  current_current_ma : ℚ := 0
  neural_activity_uv : ℚ := 0
  safety_level : SafetyLevel := .normal
  last_shutdown : Option Nat := none
  shutdown_count : Nat := 0
  total_violations : Nat := 0
deriving DecidableEq, Repr

/-! ## Regex patterns

The default restriction patterns are the four concrete regexes
`"cpu.*burn"`, `"stress.*"`, `"prime.*"`, `"fah.*"`: alternating literal
runs and `.*` wildcards.  `re.match` semantics: the pattern must match at
the START of the string (a prefix of the string may be consumed; the match
need not reach the end). -/

/-- One token of such a pattern: a literal character run or `.*`. -/
inductive RTok where
  | lit (cs : List Char)
  | dotStar
deriving DecidableEq, Repr

/-- Lower-case a token's literal characters (for `re.IGNORECASE`). -/
def tokLower : RTok → RTok
  | .lit cs => .lit (cs.map Char.toLower)
  | .dotStar => .dotStar

/-- Anchored-at-start regex matching, the semantics of Python `re.match`:
succeeds when the token sequence matches some prefix of `s` starting at
position 0. -/
def rmatch : List RTok → List Char → Bool
  | [], _ => true
  | .lit p :: rest, s => p.isPrefixOf s && rmatch rest (s.drop p.length)
  | .dotStar :: rest, s => (List.range (s.length + 1)).any fun k => rmatch rest (s.drop k)

/-- Lower-cased character list of a string. -/
def lowerChars (s : String) : List Char := s.data.map Char.toLower

/-- `re.match(pattern, process_name, re.IGNORECASE)` as a boolean. -/
def reMatchCI (toks : List RTok) (pname : String) : Bool :=
  rmatch (toks.map tokLower) (lowerChars pname)

/-- `ProcessRestriction` dataclass, its `pattern` field holding the parsed
regex. -/
structure ProcessRestriction where
  name : String
  pattern : List RTok
  risk_level : SafetyLevel
  allowed_with_safeguards : Bool := false
  requires_authorization : Bool := true
deriving DecidableEq, Repr

/-- The regex `"cpu.*burn"`. -/
def cpuBurnPattern : List RTok := [.lit "cpu".data, .dotStar, .lit "burn".data]

/-- The regex `"stress.*"`. -/
def stressPattern : List RTok := [.lit "stress".data, .dotStar]

/-- The regex `"prime.*"`. -/
def primePattern : List RTok := [.lit "prime".data, .dotStar]

/-- The regex `"fah.*"`. -/
def fahPattern : List RTok := [.lit "fah".data, .dotStar]

/-- `SafetyMonitor.DEFAULT_RESTRICTED_PROCESSES`. -/
def DEFAULT_RESTRICTED_PROCESSES : List ProcessRestriction :=
  [⟨"cpu-burn", cpuBurnPattern, .emergency, false, true⟩,
   ⟨"stress-ng", stressPattern, .critical, false, true⟩,
   ⟨"prime95", primePattern, .critical, false, true⟩,
   ⟨"folding@home", fahPattern, .warning, true, true⟩]

/-- One entry of `self._process_violations` (the dict appended in
`check_process_authorization`). -/
structure Violation where
  process : String
  restriction : String
  risk_level : SafetyLevel
  timestamp : Nat
deriving DecidableEq, Repr

/-- The `SafetyMonitor` object: thresholds, state, restriction list,
lifecycle flags and the metric histories.  Callback lists are passed
explicitly to the operations that dispatch to them. -/
structure SafetyMonitor where
  thermal : ThermalThresholds := {}
  power : PowerThresholds := {}
  neural : NeuralSafetyThresholds := {}
  monitoring_interval_ms : Nat := 100
  state : SafetyState := {}
  restricted_processes : List ProcessRestriction := DEFAULT_RESTRICTED_PROCESSES
  is_initialized : Bool := false
  is_running : Bool := false
  temperature_readings : List ℚ := []
  current_readings : List ℚ := []
  neural_readings : List ℚ := []
  process_violations : List Violation := []
deriving DecidableEq, Repr

/-- A freshly constructed `SafetyMonitor()` with all defaults. -/
def initialMonitor : SafetyMonitor := {}

/-! ## Threshold validation and lifecycle -/

/-- `_validate_thresholds`: raises (here: returns `.error`) when the thermal
emergency threshold exceeds `max_allowed` or the power current limit exceeds
`max_current_ma`; otherwise succeeds without touching any threshold. -/
def validate_thresholds (th : ThermalThresholds) (pw : PowerThresholds) :
    Except String Unit :=
  if th.max_allowed < th.emergency_threshold then
    .error "Emergency threshold exceeds max allowed"
  else if pw.max_current_ma < pw.current_limit_ma then
    .error "Current limit exceeds max"
  else
    .ok ()

/-- `initialize()`: validates thresholds, then sets `_is_initialized`.
(The Python name `initialize` is a reserved word in Lean.) -/
def initializeMonitor (m : SafetyMonitor) : Except String SafetyMonitor :=
  match validate_thresholds m.thermal m.power with
  | .error e => .error e
  | .ok _ => .ok { m with is_initialized := true }

/-- `stop()`: clears `_is_running` and `state.is_active` (the thread join
does not touch the safety state). -/
def stop (m : SafetyMonitor) : SafetyMonitor :=
  { m with is_running := false, state := { m.state with is_active := false } }

/-! ## Emergency shutdown trigger and callback dispatch -/

/-- A structured alert message, standing for the f-strings the source
formats. -/
inductive AlertMsg where
  | tempCritical (t : ℚ)
  | tempElevated (t : ℚ)
  | tempRising (t : ℚ)
  | currentCritical (c : ℚ)
  | neuralAnomaly (v : ℚ)
  | emergencyShutdown (r : ShutdownReason)
deriving DecidableEq, Repr

/-- A shutdown callback: receives the reason, observes the monitor state it
closes over (passed explicitly here), and either returns or raises. -/
def ShutdownCb := ShutdownReason → SafetyState → Except String Unit

/-- An alert callback: receives `(level, message)` and either returns or
raises. -/
def AlertCb := SafetyLevel → AlertMsg → Except String Unit

/-- The `for callback in self._shutdown_callbacks` loop of
`_trigger_emergency_shutdown`: each callback is invoked inside
`try/except`, so a raising callback is recorded and the loop continues with
the next one. -/
def run_shutdown_callbacks (reason : ShutdownReason) (s : SafetyState) :
    List ShutdownCb → List (Except String Unit)
  | [] => []
  | cb :: rest => cb reason s :: run_shutdown_callbacks reason s rest

/-- `_send_alert`: the `for callback in self._alert_callbacks` loop, each
invocation inside `try/except`. -/
def send_alert (level : SafetyLevel) (msg : AlertMsg) :
    List AlertCb → List (Except String Unit)
  | [] => []
  | cb :: rest => cb level msg :: send_alert level msg rest

/-- `_trigger_emergency_shutdown`, state part only: no-op when already in
emergency, otherwise set the emergency flag, record the shutdown and pin
the level. -/
def trigger_emergency_shutdown (now : Nat) (reason : ShutdownReason)
    (s : SafetyState) : SafetyState :=
  if s.is_emergency then s
  else
    { s with
      is_emergency := true
      last_shutdown := some now
      shutdown_count := s.shutdown_count + 1
      safety_level := .emergency }

/-- `_trigger_emergency_shutdown` with its callback dispatch: updates the
state first, then runs every shutdown callback on the updated state, then
sends the EMERGENCY alert.  Returns the new state and the two lists of
callback outcomes. -/
def trigger_emergency_shutdown_run (now : Nat) (reason : ShutdownReason)
    (s : SafetyState) (cbs : List ShutdownCb) (acbs : List AlertCb) :
    SafetyState × List (Except String Unit) × List (Except String Unit) :=
  if s.is_emergency then (s, [], [])
  else
    let s2 : SafetyState :=
      { s with
        is_emergency := true
        last_shutdown := some now
        shutdown_count := s.shutdown_count + 1
        safety_level := .emergency }
    (s2, run_shutdown_callbacks reason s2 cbs,
     send_alert .emergency (.emergencyShutdown reason) acbs)

/-! ## Per-tick sensor checks -/

/-- One tick's sensor values, the results of `_read_temperature_sensor`,
`_read_current_sensor` and `_read_neural_sensor` (abstract injection
points). -/
structure SensorReadings where
  temperature : ℚ
  current : ℚ
  neural : ℚ
deriving DecidableEq, Repr

/-- The history-append pattern used for all three reading buffers:
`append`, then if the length exceeds 1000, keep only the last 500
(Python `history[-500:]`). -/
def pushReading (hist : List ℚ) (x : ℚ) : List ℚ :=
  let h := hist ++ [x]
  if 1000 < h.length then h.drop (h.length - 500) else h

/-- The externally observable actions of one per-channel check: an optional
shutdown trigger, an optional alert, and whether the corresponding
actuation hook (`_initiate_throttling` / `_limit_current` /
`_disconnect_neural_interface`) was invoked. -/
structure ChannelActions where
  shutdown : Option ShutdownReason := none
  alert : Option (SafetyLevel × AlertMsg) := none
  hook : Bool := false
deriving DecidableEq, Repr

/-- `_check_thermal_safety`: record the reading, then walk the elif ladder
from the emergency tier down. -/
def check_thermal_safety (now : Nat) (temp : ℚ) (m : SafetyMonitor) :
    SafetyMonitor × ChannelActions :=
  let m1 : SafetyMonitor :=
    { m with
      state := { m.state with current_temperature := temp }
      temperature_readings := pushReading m.temperature_readings temp }
  if m1.thermal.emergency_threshold ≤ temp then
    ({ m1 with state := trigger_emergency_shutdown now .thermal_runaway m1.state },
     { shutdown := some .thermal_runaway })
  else if m1.thermal.critical_threshold ≤ temp then
    (m1, { alert := some (.critical, .tempCritical temp), hook := true })
  else if m1.thermal.throttling_threshold ≤ temp then
    (m1, { alert := some (.warning, .tempElevated temp), hook := true })
  else if m1.thermal.warning_threshold ≤ temp then
    (m1, { alert := some (.warning, .tempRising temp) })
  else
    (m1, {})

/-- `_check_power_safety`: record the reading, then the two-tier ladder. -/
def check_power_safety (now : Nat) (current : ℚ) (m : SafetyMonitor) :
    SafetyMonitor × ChannelActions :=
  let m1 : SafetyMonitor :=
    { m with
      state := { m.state with current_current_ma := current }
      current_readings := pushReading m.current_readings current }
  if m1.power.max_current_ma ≤ current then
    ({ m1 with state := trigger_emergency_shutdown now .power_surge m1.state },
     { shutdown := some .power_surge })
  else if m1.power.critical_current_ma ≤ current then
    (m1, { alert := some (.critical, .currentCritical current), hook := true })
  else
    (m1, {})

/-- `_check_neural_safety`: record the reading, then the two-tier ladder. -/
def check_neural_safety (now : Nat) (activity : ℚ) (m : SafetyMonitor) :
    SafetyMonitor × ChannelActions :=
  let m1 : SafetyMonitor :=
    { m with
      state := { m.state with neural_activity_uv := activity }
      neural_readings := pushReading m.neural_readings activity }
  if m1.neural.critical_threshold_uv ≤ activity then
    ({ m1 with state := trigger_emergency_shutdown now .neural_anomaly m1.state },
     { shutdown := some .neural_anomaly })
  else if m1.neural.seizure_threshold_uv ≤ activity then
    (m1, { alert := some (.critical, .neuralAnomaly activity), hook := true })
  else
    (m1, {})

/-- `_update_safety_level`: pinned to EMERGENCY while `is_emergency` is set;
otherwise the max (by `level_order` index) over the per-channel level
contributions. -/
def update_safety_level (m : SafetyMonitor) : SafetyMonitor :=
  if m.state.is_emergency then
    { m with state := { m.state with safety_level := .emergency } }
  else
    let levels : List SafetyLevel :=
      [SafetyLevel.normal]
      ++ (if m.thermal.warning_threshold ≤ m.state.current_temperature then
            [SafetyLevel.warning] else [])
      ++ (if m.thermal.critical_threshold ≤ m.state.current_temperature then
            [SafetyLevel.critical] else [])
      ++ (if m.power.warning_current_ma ≤ m.state.current_current_ma then
            [SafetyLevel.warning] else [])
      ++ (if m.power.critical_current_ma ≤ m.state.current_current_ma then
            [SafetyLevel.critical] else [])
      ++ (if m.neural.seizure_threshold_uv ≤ m.state.neural_activity_uv then
            [SafetyLevel.critical] else [])
    { m with state := { m.state with safety_level := maxLevelList levels } }

/-- `_check_all_sensors`: one monitoring tick over the given sensor
readings (state part; the dispatched actions are those of the three
channel checks). -/
def check_all_sensors (now : Nat) (r : SensorReadings) (m : SafetyMonitor) :
    SafetyMonitor :=
  update_safety_level
    (check_neural_safety now r.neural
      (check_power_safety now r.current
        (check_thermal_safety now r.temperature m).1).1).1

/-! ## Process authorization -/

/-- The `for restriction in self._restricted_processes` loop of
`check_process_authorization`, threading the monitor through. -/
def authGo (pname : String) (now : Nat) :
    List ProcessRestriction → SafetyMonitor → SafetyMonitor × Bool
  | [], m => (m, true)
  | r :: rest, m =>
    if reMatchCI r.pattern pname then
      let m2 : SafetyMonitor :=
        { m with
          state := { m.state with total_violations := m.state.total_violations + 1 }
          process_violations :=
            m.process_violations ++ [⟨pname, r.name, r.risk_level, now⟩] }
      if !r.allowed_with_safeguards then (m2, false)
      else if r.requires_authorization then (m2, false)
      else authGo pname now rest m2
    else authGo pname now rest m

/-- `check_process_authorization(process_name) -> bool`, returning the
updated monitor and the decision. -/
def check_process_authorization (m : SafetyMonitor) (pname : String)
    (now : Nat) : SafetyMonitor × Bool :=
  authGo pname now m.restricted_processes m

/-- `add_restricted_process`. -/
def add_restricted_process (m : SafetyMonitor) (r : ProcessRestriction) :
    SafetyMonitor :=
  { m with restricted_processes := m.restricted_processes ++ [r] }

/-- Does this restriction's pattern match the process name the way the code
matches (anchored, case-insensitive)? -/
def matchesRestriction (pname : String) (r : ProcessRestriction) : Bool :=
  reMatchCI r.pattern pname

/-- A restriction match that makes the loop return `False`: either not
allowed with safeguards, or requiring authorization. -/
def decidingRestriction (pname : String) (r : ProcessRestriction) : Bool :=
  matchesRestriction pname r
    && (!r.allowed_with_safeguards || r.requires_authorization)

/-- Modelled from the spec's words for claim C6: a case-insensitive,
UNANCHORED substring-or-regex match - the pattern may match starting at any
position of the process name (Python `re.search` semantics), in contrast to
the source's `re.match`. -/
def specUnanchoredMatch (toks : List RTok) (pname : String) : Bool :=
  let s := lowerChars pname
  (List.range (s.length + 1)).any fun i => rmatch (toks.map tokLower) (s.drop i)

/-! ## Public operations as a step relation -/

/-- A public operation on a running monitor: a monitoring tick with given
sensor readings, `stop()`, `check_process_authorization`, a manual
`_trigger_emergency_shutdown`, `get_metrics()` (a pure read: the source
method only reads fields) and `add_restricted_process`. -/
inductive MonOp where
  | tick (now : Nat) (r : SensorReadings)
  | stop
  | authorize (now : Nat) (pname : String)
  | trigger (now : Nat) (reason : ShutdownReason)
  | metrics
  | addRestriction (r : ProcessRestriction)

/-- Effect of one operation on the monitor. -/
def applyOp (m : SafetyMonitor) : MonOp → SafetyMonitor
  | .tick now r => check_all_sensors now r m
  | .stop => stop m
  | .authorize now pname => (check_process_authorization m pname now).1
  | .trigger now reason =>
      { m with state := trigger_emergency_shutdown now reason m.state }
  | .metrics => m
  | .addRestriction r => add_restricted_process m r

/-- A sequence of public operations applied in order. -/
def applyOps (ops : List MonOp) (m : SafetyMonitor) : SafetyMonitor :=
  ops.foldl applyOp m

/-! ## Object identity for `get_state` / `get_violation_log`

Python returns object references.  `get_state` returns `self.state` - the
very object the monitor mutates - while `get_violation_log` returns
`self._process_violations.copy()`, a fresh list.  To express the aliasing
we give `SafetyState` objects identities in a small heap. -/

/-- A heap of `SafetyState` objects addressed by identity. -/
structure StateHeap where
  objs : Nat → SafetyState

/-- A monitor whose `state` attribute is a reference into the heap (the
violation list is kept by value since `get_violation_log` copies it). -/
structure MonitorRefs where
  stateRef : Nat
  process_violations : List Violation

/-- Read a state object from the heap. -/
def heapRead (h : StateHeap) (r : Nat) : SafetyState := h.objs r

/-- Overwrite a state object in the heap (a caller mutating the object it
holds a reference to). -/
def heapWrite (h : StateHeap) (r : Nat) (v : SafetyState) : StateHeap :=
  ⟨fun i => if i = r then v else h.objs i⟩

/-- `get_state`: `return self.state` - returns the monitor's own reference,
not a copy. -/
def get_state (m : MonitorRefs) : Nat := m.stateRef

/-- `get_violation_log`: `return self._process_violations.copy()` - returns
the current list as a detached value. -/
def get_violation_log (m : MonitorRefs) : List Violation :=
  m.process_violations

/-- The monitor appending a violation to its own list (what
`check_process_authorization` does on a match). -/
def appendViolation (m : MonitorRefs) (v : Violation) : MonitorRefs :=
  { m with process_violations := m.process_violations ++ [v] }

/-! ## Helper lemmas -/

theorem trigger_is_emergency (now : Nat) (reason : ShutdownReason)
    (s : SafetyState) :
    (trigger_emergency_shutdown now reason s).is_emergency = true := by
  unfold trigger_emergency_shutdown
  split
  · assumption
  · rfl

theorem trigger_of_emergency (now : Nat) (reason : ShutdownReason)
    (s : SafetyState) (h : s.is_emergency = true) :
    trigger_emergency_shutdown now reason s = s := by
  simp [trigger_emergency_shutdown, h]

theorem run_shutdown_callbacks_eq_map (reason : ShutdownReason)
    (s : SafetyState) (cbs : List ShutdownCb) :
    run_shutdown_callbacks reason s cbs = cbs.map fun cb => cb reason s := by
  induction cbs with
  | nil => rfl
  | cons cb rest ih => simp [run_shutdown_callbacks, ih]

theorem send_alert_eq_map (level : SafetyLevel) (msg : AlertMsg)
    (acbs : List AlertCb) :
    send_alert level msg acbs = acbs.map fun cb => cb level msg := by
  induction acbs with
  | nil => rfl
  | cons cb rest ih => simp [send_alert, ih]

/-! ## Claim theorems -/

/-- Claim C3: `trigger_shutdown` is idempotent.  It is a no-op on every
state that is already in emergency; calling it twice in succession from a
non-emergency state (with no prior shutdown) leaves `shutdown_count == 1`,
`last_shutdown` set by the first call only, and runs the shutdown callbacks
exactly once, with the first call's reason. -/
theorem trigger_shutdown_idempotent (s : SafetyState) (cbs : List ShutdownCb)
    (acbs : List AlertCb) (now1 now2 : Nat) (r1 r2 : ShutdownReason)
    (hne : s.is_emergency = false) (hcount : s.shutdown_count = 0) :
    (∀ t : SafetyState, t.is_emergency = true →
        trigger_emergency_shutdown_run now2 r2 t cbs acbs = (t, [], [])) ∧
    (trigger_emergency_shutdown_run now2 r2
        (trigger_emergency_shutdown_run now1 r1 s cbs acbs).1 cbs acbs).1
      = (trigger_emergency_shutdown_run now1 r1 s cbs acbs).1 ∧
    (trigger_emergency_shutdown_run now2 r2
        (trigger_emergency_shutdown_run now1 r1 s cbs acbs).1 cbs acbs).2.1
      = [] ∧
    (trigger_emergency_shutdown_run now1 r1 s cbs acbs).1.shutdown_count = 1 ∧
    (trigger_emergency_shutdown_run now1 r1 s cbs acbs).1.last_shutdown
      = some now1 ∧
    (trigger_emergency_shutdown_run now1 r1 s cbs acbs).2.1
      = run_shutdown_callbacks r1
          (trigger_emergency_shutdown_run now1 r1 s cbs acbs).1 cbs := by
  refine ⟨fun t ht => by simp [trigger_emergency_shutdown_run, ht], ?_, ?_, ?_, ?_, ?_⟩ <;>
    simp [trigger_emergency_shutdown_run, hne, hcount]

/-- Witness for C3: a raising callback, two manual triggers from the
initial state. -/
theorem trigger_shutdown_idempotent_witness :
    (∀ t : SafetyState, t.is_emergency = true →
        trigger_emergency_shutdown_run 9 .manual_override t
          [fun _ _ => .error "boom"] [] = (t, [], [])) ∧
    (trigger_emergency_shutdown_run 9 .manual_override
        (trigger_emergency_shutdown_run 5 .system_failure {}
          [fun _ _ => .error "boom"] []).1
        [fun _ _ => .error "boom"] []).1
      = (trigger_emergency_shutdown_run 5 .system_failure {}
          [fun _ _ => .error "boom"] []).1 ∧
    (trigger_emergency_shutdown_run 9 .manual_override
        (trigger_emergency_shutdown_run 5 .system_failure {}
          [fun _ _ => .error "boom"] []).1
        [fun _ _ => .error "boom"] []).2.1
      = [] ∧
    (trigger_emergency_shutdown_run 5 .system_failure {}
        [fun _ _ => .error "boom"] []).1.shutdown_count = 1 ∧
    (trigger_emergency_shutdown_run 5 .system_failure {}
        [fun _ _ => .error "boom"] []).1.last_shutdown = some 5 ∧
    (trigger_emergency_shutdown_run 5 .system_failure {}
        [fun _ _ => .error "boom"] []).2.1
      = run_shutdown_callbacks .system_failure
          (trigger_emergency_shutdown_run 5 .system_failure {}
            [fun _ _ => .error "boom"] []).1 [fun _ _ => .error "boom"] :=
  trigger_shutdown_idempotent {} [fun _ _ => .error "boom"] [] 5 9
    .system_failure .manual_override rfl rfl

/-- Claim C4: the shutdown trigger updates all state fields before any
callback runs - every callback (shutdown and alert alike) observes the
already-updated EMERGENCY state - and dispatch is synchronous in
registration order with per-callback fault isolation: every callback runs
no matter which of them raise. -/
theorem shutdown_state_before_callbacks (now : Nat) (reason : ShutdownReason)
    (s : SafetyState) (cbs : List ShutdownCb) (acbs : List AlertCb)
    (hne : s.is_emergency = false) :
    (trigger_emergency_shutdown_run now reason s cbs acbs).1.is_emergency
      = true ∧
    (trigger_emergency_shutdown_run now reason s cbs acbs).1.safety_level
      = .emergency ∧
    (trigger_emergency_shutdown_run now reason s cbs acbs).1.last_shutdown
      = some now ∧
    (trigger_emergency_shutdown_run now reason s cbs acbs).1.shutdown_count
      = s.shutdown_count + 1 ∧
    (trigger_emergency_shutdown_run now reason s cbs acbs).2.1
      = cbs.map (fun cb =>
          cb reason (trigger_emergency_shutdown_run now reason s cbs acbs).1) ∧
    (trigger_emergency_shutdown_run now reason s cbs acbs).2.1.length
      = cbs.length ∧
    (trigger_emergency_shutdown_run now reason s cbs acbs).2.2
      = acbs.map (fun cb => cb .emergency (.emergencyShutdown reason)) ∧
    (trigger_emergency_shutdown_run now reason s cbs acbs).2.2.length
      = acbs.length := by
  simp [trigger_emergency_shutdown_run, hne, run_shutdown_callbacks_eq_map,
    send_alert_eq_map]

/-- Witness for C4: the first shutdown callback and the first alert
callback raise; the state is still updated and the later callbacks still
run. -/
theorem shutdown_state_before_callbacks_witness :
    (trigger_emergency_shutdown_run 3 .thermal_runaway {}
        [fun _ _ => .error "cb1 failed", fun _ _ => .ok ()]
        [fun _ _ => .error "alert1 failed", fun _ _ => .ok ()]).1.is_emergency
      = true ∧
    (trigger_emergency_shutdown_run 3 .thermal_runaway {}
        [fun _ _ => .error "cb1 failed", fun _ _ => .ok ()]
        [fun _ _ => .error "alert1 failed", fun _ _ => .ok ()]).1.safety_level
      = .emergency ∧
    (trigger_emergency_shutdown_run 3 .thermal_runaway {}
        [fun _ _ => .error "cb1 failed", fun _ _ => .ok ()]
        [fun _ _ => .error "alert1 failed", fun _ _ => .ok ()]).2.1.length
      = 2 ∧
    (trigger_emergency_shutdown_run 3 .thermal_runaway {}
        [fun _ _ => .error "cb1 failed", fun _ _ => .ok ()]
        [fun _ _ => .error "alert1 failed", fun _ _ => .ok ()]).2.2.length
      = 2 := by
  have h := shutdown_state_before_callbacks 3 .thermal_runaway {}
    [fun _ _ => .error "cb1 failed", fun _ _ => .ok ()]
    [fun _ _ => .error "alert1 failed", fun _ _ => .ok ()] rfl
  refine ⟨h.1, h.2.1, ?_, ?_⟩
  · rw [h.2.2.2.2.2.1]
    rfl
  · rw [h.2.2.2.2.2.2.2]
    rfl

theorem validate_thresholds_ok (th : ThermalThresholds) (pw : PowerThresholds) :
    validate_thresholds th pw = .ok () ↔
      (th.emergency_threshold ≤ th.max_allowed ∧
       pw.current_limit_ma ≤ pw.max_current_ma) := by
  unfold validate_thresholds
  by_cases h1 : th.max_allowed < th.emergency_threshold
  · rw [if_pos h1]
    constructor
    · intro hc
      exact Except.noConfusion hc
    · rintro ⟨hle, -⟩
      exact absurd h1 (not_lt.mpr hle)
  · rw [if_neg h1]
    by_cases h2 : pw.max_current_ma < pw.current_limit_ma
    · rw [if_pos h2]
      constructor
      · intro hc
        exact Except.noConfusion hc
      · rintro ⟨-, hle⟩
        exact absurd h2 (not_lt.mpr hle)
    · rw [if_neg h2]
      exact iff_of_true rfl ⟨not_lt.mp h1, not_lt.mp h2⟩

/-- Claim C5: `initialize()` succeeds if and only if the thermal emergency
threshold is at most `max_allowed` and the power current limit is at most
`max_current_ma`; on success every configured value is passed through
unchanged (never clamped or corrected). -/
theorem initialize_validates (m : SafetyMonitor) :
    ((initializeMonitor m).isOk = true ↔
      (m.thermal.emergency_threshold ≤ m.thermal.max_allowed ∧
       m.power.current_limit_ma ≤ m.power.max_current_ma)) ∧
    (∀ m' : SafetyMonitor, initializeMonitor m = .ok m' →
      m'.thermal = m.thermal ∧ m'.power = m.power ∧ m'.neural = m.neural ∧
      m'.state = m.state ∧ m' = { m with is_initialized := true }) := by
  constructor
  · cases hv : validate_thresholds m.thermal m.power with
    | error e =>
      unfold initializeMonitor
      rw [hv]
      simp only [Except.isOk]
      constructor
      · intro hc
        exact Bool.noConfusion hc
      · intro hP
        have hok := (validate_thresholds_ok m.thermal m.power).mpr hP
        rw [hv] at hok
        exact Except.noConfusion hok
    | ok u =>
      cases u
      unfold initializeMonitor
      rw [hv]
      simp only [Except.isOk]
      exact iff_of_true rfl ((validate_thresholds_ok m.thermal m.power).mp hv)
  · intro m' hm'
    unfold initializeMonitor at hm'
    cases hv : validate_thresholds m.thermal m.power with
    | error e =>
      rw [hv] at hm'
      exact Except.noConfusion hm'
    | ok u =>
      rw [hv] at hm'
      cases hm'
      exact ⟨rfl, rfl, rfl, rfl, rfl⟩

/-- Witness for C5: the default configuration sits exactly on the boundary
`emergency_threshold == max_allowed` and is accepted. -/
theorem initialize_validates_witness :
    (initializeMonitor initialMonitor).isOk = true ∧
    initialMonitor.thermal.emergency_threshold
      = initialMonitor.thermal.max_allowed :=
  ⟨(initialize_validates initialMonitor).1.mpr ⟨by decide, by decide⟩,
   by decide⟩

/-- Claim C7: under the default restriction list, `cpu-burn` is denied (it
matches the EMERGENCY-tier `cpu-burn` restriction, which is not
allowed-with-safeguards, and one violation is recorded), while `bash`
matches no default restriction and is authorized with no violation. -/
theorem default_authorize_examples :
    (check_process_authorization initialMonitor "cpu-burn" 0).2 = false ∧
    (check_process_authorization initialMonitor "cpu-burn" 0).1.process_violations
      = [⟨"cpu-burn", "cpu-burn", .emergency, 0⟩] ∧
    (DEFAULT_RESTRICTED_PROCESSES.filter
        (matchesRestriction "cpu-burn")).map ProcessRestriction.allowed_with_safeguards
      = [false] ∧
    (check_process_authorization initialMonitor "bash" 0).2 = true ∧
    DEFAULT_RESTRICTED_PROCESSES.any (matchesRestriction "bash") = false ∧
    (check_process_authorization initialMonitor "bash" 0).1.state.total_violations
      = 0 := by
  decide

/-- Counterexample for C9: `get_state` hands the caller the monitor's own
`SafetyState` object; writing through the returned reference flips the
monitor's `is_emergency`, so the returned value is not a read-only copy. -/
theorem snapshot_aliasing_counterexample :
    (heapRead
        (heapWrite ⟨fun _ => {}⟩ (get_state ⟨0, []⟩)
          { heapRead ⟨fun _ => {}⟩ (get_state ⟨0, []⟩) with is_emergency := true })
        (MonitorRefs.mk 0 []).stateRef).is_emergency = true ∧
    (heapRead ⟨fun _ => {}⟩ (MonitorRefs.mk 0 []).stateRef).is_emergency
      = false := by
  constructor
  · simp [heapRead, heapWrite, get_state]
  · rfl

/-- Claim C9 (amended): `get_state` returns the monitor's live `SafetyState`
reference, not a copy - a write through the returned reference is seen by
the monitor - while `get_violation_log` does return a copy: a previously
returned log value is a detached list that later monitor appends extend
without modifying. -/
theorem snapshot_returns_live_reference (h : StateHeap) (m : MonitorRefs)
    (v : SafetyState) (w : Violation) :
    get_state m = m.stateRef ∧
    heapRead (heapWrite h (get_state m) v) m.stateRef = v ∧
    get_violation_log (appendViolation m w) = get_violation_log m ++ [w] := by
  refine ⟨rfl, ?_, rfl⟩
  simp [heapRead, heapWrite, get_state]

/-- The scenario configuration of claim C1: `emergency_threshold = 50.0`,
everything else default. -/
def scenarioMonitor : SafetyMonitor := { thermal := { emergency_threshold := 50 } }

/-- Claim C1: the per-tick thermal evaluation follows the four-tier ladder,
highest tier governing: at or above the emergency threshold an emergency
shutdown with reason THERMAL_RUNAWAY; critical tier sends a CRITICAL alert
and throttles; throttling tier sends an alert and throttles; warning tier
sends only an alert (never setting `is_emergency`, never shutting down);
below the warning threshold nothing happens. -/
theorem thermal_tier_ladder (m : SafetyMonitor) (now : Nat) (t : ℚ)
    (hne : m.state.is_emergency = false) :
    (m.thermal.emergency_threshold ≤ t →
      (check_thermal_safety now t m).2.shutdown = some .thermal_runaway ∧
      (check_thermal_safety now t m).1.state.is_emergency = true ∧
      (check_thermal_safety now t m).1.state.safety_level = .emergency ∧
      (check_thermal_safety now t m).1.state.shutdown_count
        = m.state.shutdown_count + 1) ∧
    (m.thermal.critical_threshold ≤ t → t < m.thermal.emergency_threshold →
      (check_thermal_safety now t m).2.alert
        = some (.critical, .tempCritical t) ∧
      (check_thermal_safety now t m).2.hook = true ∧
      (check_thermal_safety now t m).2.shutdown = none ∧
      (check_thermal_safety now t m).1.state.is_emergency = false) ∧
    (m.thermal.throttling_threshold ≤ t → t < m.thermal.critical_threshold →
      m.thermal.critical_threshold ≤ m.thermal.emergency_threshold →
      (check_thermal_safety now t m).2.alert
        = some (.warning, .tempElevated t) ∧
      (check_thermal_safety now t m).2.hook = true ∧
      (check_thermal_safety now t m).2.shutdown = none ∧
      (check_thermal_safety now t m).1.state.is_emergency = false) ∧
    (m.thermal.warning_threshold ≤ t → t < m.thermal.throttling_threshold →
      m.thermal.throttling_threshold ≤ m.thermal.critical_threshold →
      m.thermal.critical_threshold ≤ m.thermal.emergency_threshold →
      (check_thermal_safety now t m).2.alert
        = some (.warning, .tempRising t) ∧
      (check_thermal_safety now t m).2.hook = false ∧
      (check_thermal_safety now t m).2.shutdown = none ∧
      (check_thermal_safety now t m).1.state.is_emergency = false ∧
      (check_thermal_safety now t m).1.state.shutdown_count
        = m.state.shutdown_count) ∧
    (t < m.thermal.warning_threshold →
      m.thermal.warning_threshold ≤ m.thermal.throttling_threshold →
      m.thermal.throttling_threshold ≤ m.thermal.critical_threshold →
      m.thermal.critical_threshold ≤ m.thermal.emergency_threshold →
      (check_thermal_safety now t m).2 = {} ∧
      (check_thermal_safety now t m).1.state.is_emergency = false) := by
  refine ⟨?_, ?_, ?_, ?_, ?_⟩
  · intro h1
    simp [check_thermal_safety, h1, trigger_emergency_shutdown, hne]
  · intro h1 h2
    have e1 : ¬ m.thermal.emergency_threshold ≤ t := not_le.mpr h2
    simp [check_thermal_safety, e1, h1, hne]
  · intro h1 h2 h3
    have e1 : ¬ m.thermal.emergency_threshold ≤ t :=
      not_le.mpr (lt_of_lt_of_le h2 h3)
    have e2 : ¬ m.thermal.critical_threshold ≤ t := not_le.mpr h2
    simp [check_thermal_safety, e1, e2, h1, hne]
  · intro h1 h2 h3 h4
    have e3 : ¬ m.thermal.throttling_threshold ≤ t := not_le.mpr h2
    have e2 : ¬ m.thermal.critical_threshold ≤ t :=
      not_le.mpr (lt_of_lt_of_le h2 h3)
    have e1 : ¬ m.thermal.emergency_threshold ≤ t :=
      not_le.mpr (lt_of_lt_of_le (lt_of_lt_of_le h2 h3) h4)
    simp [check_thermal_safety, e1, e2, e3, h1, hne]
  · intro h1 h2 h3 h4
    have e4 : ¬ m.thermal.warning_threshold ≤ t := not_le.mpr h1
    have e3 : ¬ m.thermal.throttling_threshold ≤ t :=
      not_le.mpr (lt_of_lt_of_le h1 h2)
    have e2 : ¬ m.thermal.critical_threshold ≤ t :=
      not_le.mpr (lt_of_lt_of_le (lt_of_lt_of_le h1 h2) h3)
    have e1 : ¬ m.thermal.emergency_threshold ≤ t :=
      not_le.mpr (lt_of_lt_of_le (lt_of_lt_of_le (lt_of_lt_of_le h1 h2) h3) h4)
    simp [check_thermal_safety, e1, e2, e3, e4, hne]

/-- Witness for C1, the spec's scenario: with `emergency_threshold = 50`,
a reading of 55 sets `is_emergency`, pins the level to EMERGENCY, and
records exactly one shutdown, reason THERMAL_RUNAWAY. -/
theorem thermal_tier_ladder_witness :
    scenarioMonitor.state.is_emergency = false ∧
    ((check_thermal_safety 0 55 scenarioMonitor).2.shutdown
        = some .thermal_runaway ∧
      (check_thermal_safety 0 55 scenarioMonitor).1.state.is_emergency = true ∧
      (check_thermal_safety 0 55 scenarioMonitor).1.state.safety_level
        = .emergency ∧
      (check_thermal_safety 0 55 scenarioMonitor).1.state.shutdown_count
        = scenarioMonitor.state.shutdown_count + 1) :=
  ⟨rfl, (thermal_tier_ladder scenarioMonitor 0 55 rfl).1 (by decide)⟩

theorem check_thermal_is_emergency (now : Nat) (t : ℚ) (m : SafetyMonitor)
    (h : m.state.is_emergency = true) :
    (check_thermal_safety now t m).1.state.is_emergency = true := by
  by_cases c1 : m.thermal.emergency_threshold ≤ t <;>
    by_cases c2 : m.thermal.critical_threshold ≤ t <;>
      by_cases c3 : m.thermal.throttling_threshold ≤ t <;>
        by_cases c4 : m.thermal.warning_threshold ≤ t <;>
          simp [check_thermal_safety, c1, c2, c3, c4,
            trigger_emergency_shutdown, h]

theorem check_power_is_emergency (now : Nat) (c : ℚ) (m : SafetyMonitor)
    (h : m.state.is_emergency = true) :
    (check_power_safety now c m).1.state.is_emergency = true := by
  by_cases c1 : m.power.max_current_ma ≤ c <;>
    by_cases c2 : m.power.critical_current_ma ≤ c <;>
      simp [check_power_safety, c1, c2, trigger_emergency_shutdown, h]

theorem check_neural_is_emergency (now : Nat) (v : ℚ) (m : SafetyMonitor)
    (h : m.state.is_emergency = true) :
    (check_neural_safety now v m).1.state.is_emergency = true := by
  by_cases c1 : m.neural.critical_threshold_uv ≤ v <;>
    by_cases c2 : m.neural.seizure_threshold_uv ≤ v <;>
      simp [check_neural_safety, c1, c2, trigger_emergency_shutdown, h]

theorem update_safety_level_is_emergency (m : SafetyMonitor) :
    (update_safety_level m).state.is_emergency = m.state.is_emergency := by
  cases he : m.state.is_emergency <;> simp [update_safety_level, he]

theorem update_safety_level_of_emergency (m : SafetyMonitor)
    (h : m.state.is_emergency = true) :
    (update_safety_level m).state.safety_level = .emergency := by
  simp [update_safety_level, h]

theorem authGo_preserves_is_emergency (pname : String) (now : Nat) :
    ∀ (rs : List ProcessRestriction) (m : SafetyMonitor),
      (authGo pname now rs m).1.state.is_emergency = m.state.is_emergency := by
  intro rs
  induction rs with
  | nil => intro m; rfl
  | cons r rest ih =>
    intro m
    cases hm : reMatchCI r.pattern pname with
    | false => simp [authGo, hm, ih]
    | true =>
      cases ha : r.allowed_with_safeguards with
      | false => simp [authGo, hm, ha]
      | true =>
        cases hr : r.requires_authorization with
        | true => simp [authGo, hm, ha, hr]
        | false => simp [authGo, hm, ha, hr, ih]

theorem applyOp_preserves_emergency (m : SafetyMonitor) (op : MonOp)
    (h : m.state.is_emergency = true) :
    (applyOp m op).state.is_emergency = true := by
  cases op with
  | tick now r =>
    have h1 := check_thermal_is_emergency now r.temperature m h
    have h2 := check_power_is_emergency now r.current _ h1
    have h3 := check_neural_is_emergency now r.neural _ h2
    show (update_safety_level _).state.is_emergency = true
    rw [update_safety_level_is_emergency]
    exact h3
  | stop => exact h
  | authorize now pname =>
    show (authGo pname now m.restricted_processes m).1.state.is_emergency = true
    rw [authGo_preserves_is_emergency]
    exact h
  | trigger now reason => exact trigger_is_emergency now reason m.state
  | metrics => exact h
  | addRestriction r => exact h

theorem applyOps_preserves_emergency :
    ∀ (ops : List MonOp) (m : SafetyMonitor), m.state.is_emergency = true →
      (applyOps ops m).state.is_emergency = true := by
  intro ops
  induction ops with
  | nil => intro m h; exact h
  | cons op rest ih =>
    intro m h
    exact ih _ (applyOp_preserves_emergency m op h)

/-- Claim C2: once `is_emergency` is true it stays true under every
sequence of subsequent public operations (ticks with arbitrary readings,
`stop`, authorization checks, manual triggers, metrics reads, restriction
additions), and while it is set, recomputing the safety level always
yields EMERGENCY. -/
theorem emergency_is_sticky (m : SafetyMonitor) (ops : List MonOp)
    (h : m.state.is_emergency = true) :
    (applyOps ops m).state.is_emergency = true ∧
    (update_safety_level (applyOps ops m)).state.safety_level = .emergency :=
  ⟨applyOps_preserves_emergency ops m h,
   update_safety_level_of_emergency _ (applyOps_preserves_emergency ops m h)⟩

/-- A monitor already in emergency, for the C2 witness. -/
def emergencyMonitor : SafetyMonitor := { state := { is_emergency := true } }

/-- Witness for C2: safe readings, an authorization check, `stop` and a
metrics read do not clear the emergency flag. -/
theorem emergency_is_sticky_witness :
    (applyOps
        [.tick 1 ⟨20, 50, 10⟩, .authorize 2 "cpu-burn", .stop, .metrics]
        emergencyMonitor).state.is_emergency = true ∧
    (update_safety_level
        (applyOps
          [.tick 1 ⟨20, 50, 10⟩, .authorize 2 "cpu-burn", .stop, .metrics]
          emergencyMonitor)).state.safety_level = .emergency :=
  emergency_is_sticky emergencyMonitor
    [.tick 1 ⟨20, 50, 10⟩, .authorize 2 "cpu-burn", .stop, .metrics] rfl

theorem pushReading_length_le (hist : List ℚ) (x : ℚ)
    (h : hist.length ≤ 1000) : (pushReading hist x).length ≤ 1000 := by
  simp only [pushReading]
  by_cases hc : 1000 < (hist ++ [x]).length
  · rw [if_pos hc, List.length_drop]
    omega
  · rw [if_neg hc]
    rw [List.length_append] at hc ⊢
    simp only [List.length_singleton] at hc ⊢
    omega

theorem check_thermal_histories (now : Nat) (t : ℚ) (m : SafetyMonitor) :
    (check_thermal_safety now t m).1.temperature_readings
        = pushReading m.temperature_readings t ∧
    (check_thermal_safety now t m).1.current_readings = m.current_readings ∧
    (check_thermal_safety now t m).1.neural_readings = m.neural_readings := by
  by_cases c1 : m.thermal.emergency_threshold ≤ t <;>
    by_cases c2 : m.thermal.critical_threshold ≤ t <;>
      by_cases c3 : m.thermal.throttling_threshold ≤ t <;>
        by_cases c4 : m.thermal.warning_threshold ≤ t <;>
          simp [check_thermal_safety, c1, c2, c3, c4]

theorem check_power_histories (now : Nat) (c : ℚ) (m : SafetyMonitor) :
    (check_power_safety now c m).1.temperature_readings
        = m.temperature_readings ∧
    (check_power_safety now c m).1.current_readings
        = pushReading m.current_readings c ∧
    (check_power_safety now c m).1.neural_readings = m.neural_readings := by
  by_cases c1 : m.power.max_current_ma ≤ c <;>
    by_cases c2 : m.power.critical_current_ma ≤ c <;>
      simp [check_power_safety, c1, c2]

theorem check_neural_histories (now : Nat) (v : ℚ) (m : SafetyMonitor) :
    (check_neural_safety now v m).1.temperature_readings
        = m.temperature_readings ∧
    (check_neural_safety now v m).1.current_readings = m.current_readings ∧
    (check_neural_safety now v m).1.neural_readings
        = pushReading m.neural_readings v := by
  by_cases c1 : m.neural.critical_threshold_uv ≤ v <;>
    by_cases c2 : m.neural.seizure_threshold_uv ≤ v <;>
      simp [check_neural_safety, c1, c2]

theorem update_safety_level_histories (m : SafetyMonitor) :
    (update_safety_level m).temperature_readings = m.temperature_readings ∧
    (update_safety_level m).current_readings = m.current_readings ∧
    (update_safety_level m).neural_readings = m.neural_readings := by
  cases he : m.state.is_emergency <;> simp [update_safety_level, he]

theorem check_all_sensors_histories (now : Nat) (r : SensorReadings)
    (m : SafetyMonitor) :
    (check_all_sensors now r m).temperature_readings
        = pushReading m.temperature_readings r.temperature ∧
    (check_all_sensors now r m).current_readings
        = pushReading m.current_readings r.current ∧
    (check_all_sensors now r m).neural_readings
        = pushReading m.neural_readings r.neural := by
  have hT := check_thermal_histories now r.temperature m
  have hP := check_power_histories now r.current
    (check_thermal_safety now r.temperature m).1
  have hN := check_neural_histories now r.neural
    (check_power_safety now r.current
      (check_thermal_safety now r.temperature m).1).1
  have hU := update_safety_level_histories
    (check_neural_safety now r.neural
      (check_power_safety now r.current
        (check_thermal_safety now r.temperature m).1).1).1
  refine ⟨?_, ?_, ?_⟩
  · show (update_safety_level _).temperature_readings = _
    rw [hU.1, hN.1, hP.1, hT.1]
  · show (update_safety_level _).current_readings = _
    rw [hU.2.1, hN.2.1, hP.2.1, hT.2.1]
  · show (update_safety_level _).neural_readings = _
    rw [hU.2.2, hN.2.2, hP.2.2, hT.2.2]

theorem foldTicks_bounded (ticks : List (Nat × SensorReadings)) :
    ∀ m : SafetyMonitor,
      m.temperature_readings.length ≤ 1000 →
      m.current_readings.length ≤ 1000 →
      m.neural_readings.length ≤ 1000 →
      ((ticks.foldl (fun acc p => check_all_sensors p.1 p.2 acc)
          m).temperature_readings.length ≤ 1000 ∧
       (ticks.foldl (fun acc p => check_all_sensors p.1 p.2 acc)
          m).current_readings.length ≤ 1000 ∧
       (ticks.foldl (fun acc p => check_all_sensors p.1 p.2 acc)
          m).neural_readings.length ≤ 1000) := by
  induction ticks with
  | nil => intro m h1 h2 h3; exact ⟨h1, h2, h3⟩
  | cons p rest ih =>
    intro m h1 h2 h3
    have hh := check_all_sensors_histories p.1 p.2 m
    apply ih
    · rw [hh.1]
      exact pushReading_length_le _ _ h1
    · rw [hh.2.1]
      exact pushReading_length_le _ _ h2
    · rw [hh.2.2]
      exact pushReading_length_le _ _ h3

/-- Claim C8: after any number of ticks from a fresh monitor, each of the
three reading-history buffers holds at most 1000 entries, and an append
that would push a buffer past 1000 trims it to exactly its most recent 500
entries. -/
theorem history_buffers_bounded (ticks : List (Nat × SensorReadings))
    (hist : List ℚ) (x : ℚ) (hlen : hist.length = 1000) :
    ((ticks.foldl (fun acc p => check_all_sensors p.1 p.2 acc)
        initialMonitor).temperature_readings.length ≤ 1000 ∧
     (ticks.foldl (fun acc p => check_all_sensors p.1 p.2 acc)
        initialMonitor).current_readings.length ≤ 1000 ∧
     (ticks.foldl (fun acc p => check_all_sensors p.1 p.2 acc)
        initialMonitor).neural_readings.length ≤ 1000) ∧
    pushReading hist x = (hist ++ [x]).drop 501 ∧
    (pushReading hist x).length = 500 := by
  have hc : 1000 < (hist ++ [x]).length := by
    rw [List.length_append, List.length_singleton, hlen]
    omega
  have hd : (hist ++ [x]).length - 500 = 501 := by
    rw [List.length_append, List.length_singleton, hlen]
  refine ⟨foldTicks_bounded ticks initialMonitor (by decide) (by decide)
    (by decide), ?_, ?_⟩
  · simp only [pushReading]
    rw [if_pos hc, hd]
  · simp only [pushReading]
    rw [if_pos hc, List.length_drop, List.length_append,
      List.length_singleton, hlen]

/-- Witness for C8: one tick from the fresh monitor stays within bounds,
and appending to a full 1000-entry buffer trims it to its most recent 500
entries. -/
theorem history_buffers_bounded_witness :
    (([((0 : Nat), (⟨1, 2, 3⟩ : SensorReadings))].foldl
        (fun acc p => check_all_sensors p.1 p.2 acc)
        initialMonitor).temperature_readings.length ≤ 1000 ∧
     ([((0 : Nat), (⟨1, 2, 3⟩ : SensorReadings))].foldl
        (fun acc p => check_all_sensors p.1 p.2 acc)
        initialMonitor).current_readings.length ≤ 1000 ∧
     ([((0 : Nat), (⟨1, 2, 3⟩ : SensorReadings))].foldl
        (fun acc p => check_all_sensors p.1 p.2 acc)
        initialMonitor).neural_readings.length ≤ 1000) ∧
    pushReading (List.replicate 1000 (0 : ℚ)) 7
      = (List.replicate 1000 (0 : ℚ) ++ [7]).drop 501 ∧
    (pushReading (List.replicate 1000 (0 : ℚ)) 7).length = 500 :=
  history_buffers_bounded [((0 : Nat), (⟨1, 2, 3⟩ : SensorReadings))]
    (List.replicate 1000 (0 : ℚ)) 7 (List.length_replicate 1000 0)

theorem authGo_spec (pname : String) (now : Nat) :
    ∀ (rs : List ProcessRestriction) (m : SafetyMonitor),
      ((authGo pname now rs m).2
          = !(rs.any (decidingRestriction pname))) ∧
      (authGo pname now rs m).1.state.total_violations
        = m.state.total_violations
          + (rs.takeWhile fun r => !decidingRestriction pname r).countP
              (matchesRestriction pname)
          + (if rs.any (decidingRestriction pname) then 1 else 0) ∧
      (authGo pname now rs m).1.process_violations.length
        = m.process_violations.length
          + (rs.takeWhile fun r => !decidingRestriction pname r).countP
              (matchesRestriction pname)
          + (if rs.any (decidingRestriction pname) then 1 else 0) := by
  intro rs
  induction rs with
  | nil => intro m; simp [authGo]
  | cons r rest ih =>
    intro m
    cases hm : reMatchCI r.pattern pname with
    | false =>
      have hmr : matchesRestriction pname r = false := hm
      have hd : decidingRestriction pname r = false := by
        simp [decidingRestriction, hmr]
      refine ⟨?_, ?_, ?_⟩ <;>
        cases hany : rest.any (decidingRestriction pname) <;>
          simp [authGo, hm, hmr, hd, hany, ih, List.countP_cons,
            List.length_append]
    | true =>
      have hmr : matchesRestriction pname r = true := hm
      cases ha : r.allowed_with_safeguards with
      | false =>
        have hd : decidingRestriction pname r = true := by
          simp [decidingRestriction, hmr, ha]
        refine ⟨?_, ?_, ?_⟩ <;>
          simp [authGo, hm, ha, hd, List.length_append]
      | true =>
        cases hr : r.requires_authorization with
        | true =>
          have hd : decidingRestriction pname r = true := by
            simp [decidingRestriction, hmr, ha, hr]
          refine ⟨?_, ?_, ?_⟩ <;>
            simp [authGo, hm, ha, hr, hd, List.length_append]
        | false =>
          have hd : decidingRestriction pname r = false := by
            simp [decidingRestriction, ha, hr]
          refine ⟨?_, ?_, ?_⟩ <;>
            cases hany : rest.any (decidingRestriction pname) <;>
              simp [authGo, hm, ha, hr, hmr, hd, hany, ih,
                List.countP_cons, List.length_append] <;>
                omega

theorem authGo_no_match (pname : String) (now : Nat) :
    ∀ (rs : List ProcessRestriction) (m : SafetyMonitor),
      (∀ r ∈ rs, matchesRestriction pname r = false) →
      authGo pname now rs m = (m, true) := by
  intro rs
  induction rs with
  | nil => intro m _; rfl
  | cons r rest ih =>
    intro m hno
    have h0 : reMatchCI r.pattern pname = false := hno r (by simp)
    simp only [authGo, h0, Bool.false_eq_true, if_false]
    exact ih m fun q hq => hno q (by simp [hq])

/-- Counterexample for C6: the claim's match semantics is an unanchored
substring-or-regex match, but the source uses `re.match`, which anchors at
the start.  For the process name `run-stress` a default restriction's
pattern (`stress.*`) matches unanchored - so the claim predicts a recorded
violation and a denial - yet the code records no violation and
authorizes. -/
theorem authorize_unanchored_counterexample :
    DEFAULT_RESTRICTED_PROCESSES.any
        (fun r => specUnanchoredMatch r.pattern "run-stress") = true ∧
    DEFAULT_RESTRICTED_PROCESSES.any
        (fun r => r.requires_authorization
          && specUnanchoredMatch r.pattern "run-stress") = true ∧
    (check_process_authorization initialMonitor "run-stress" 0).2 = true ∧
    (check_process_authorization initialMonitor
        "run-stress" 0).1.state.total_violations = 0 ∧
    (check_process_authorization initialMonitor
        "run-stress" 0).1.process_violations = [] := by
  decide

/-- Claim C6 (amended): `authorize` scans the restriction list in
registration order using Python `re.match` semantics - a case-insensitive
regex match anchored at the START of the process name, not an unanchored
substring search.  Every matching restriction scanned records one
violation; the scan stops, denying, at the first match whose restriction
has `allowed_with_safeguards` false or `requires_authorization` true
(so exactly one violation is recorded when the first match decides); a
match with safeguards allowed and no authorization required records its
violation and the scan continues.  If no restriction matches, the process
is authorized and nothing is recorded. -/
theorem authorize_scan_behavior (m : SafetyMonitor) (pname : String)
    (now : Nat) :
    ((check_process_authorization m pname now).2
        = !(m.restricted_processes.any (decidingRestriction pname))) ∧
    (check_process_authorization m pname now).1.state.total_violations
      = m.state.total_violations
        + (m.restricted_processes.takeWhile
            fun r => !decidingRestriction pname r).countP
            (matchesRestriction pname)
        + (if m.restricted_processes.any (decidingRestriction pname)
            then 1 else 0) ∧
    (check_process_authorization m pname now).1.process_violations.length
      = m.process_violations.length
        + (m.restricted_processes.takeWhile
            fun r => !decidingRestriction pname r).countP
            (matchesRestriction pname)
        + (if m.restricted_processes.any (decidingRestriction pname)
            then 1 else 0) ∧
    ((∀ r ∈ m.restricted_processes, matchesRestriction pname r = false) →
      check_process_authorization m pname now = (m, true)) :=
  ⟨(authGo_spec pname now m.restricted_processes m).1,
   (authGo_spec pname now m.restricted_processes m).2.1,
   (authGo_spec pname now m.restricted_processes m).2.2,
   fun hno => authGo_no_match pname now m.restricted_processes m hno⟩

/-- Witness for C6 (amended): instantiated at the default list for `bash`
(no match: authorized, no violation) - the inner no-match hypothesis
discharged by evaluation. -/
theorem authorize_scan_behavior_witness :
    check_process_authorization initialMonitor "bash" 0
      = (initialMonitor, true) :=
  (authorize_scan_behavior initialMonitor "bash" 0).2.2.2 (by decide)

/-- Claim C10: `stop()` only clears `state.is_active`; every other
`SafetyState` field, the three reading histories and the violation log are
untouched (and `stop`, a total function here as in the source, never
raises). -/
theorem stop_frame (m : SafetyMonitor) :
    (stop m).state.is_active = false ∧
    (stop m).state.is_emergency = m.state.is_emergency ∧
    (stop m).state.safety_level = m.state.safety_level ∧
    (stop m).state.current_temperature = m.state.current_temperature ∧
    (stop m).state.current_current_ma = m.state.current_current_ma ∧
    (stop m).state.neural_activity_uv = m.state.neural_activity_uv ∧
    (stop m).state.last_shutdown = m.state.last_shutdown ∧
    (stop m).state.shutdown_count = m.state.shutdown_count ∧
    (stop m).state.total_violations = m.state.total_violations ∧
    (stop m).temperature_readings = m.temperature_readings ∧
    (stop m).current_readings = m.current_readings ∧
    (stop m).neural_readings = m.neural_readings ∧
    (stop m).process_violations = m.process_violations ∧
    (stop m).state = { m.state with is_active := false } :=
  ⟨rfl, rfl, rfl, rfl, rfl, rfl, rfl, rfl, rfl, rfl, rfl, rfl, rfl, rfl⟩

end SafetyMon
